import Mathlib

/-!
Verification of the Quantum Fleet Route Optimization repository against its
natural-language specification.  The frontend utilities are embedded from
`src/Components/utils/geocoding.js`, `src/frontend/src/App.js`,
`src/frontend/src/components/MetricsPanel.js` and the unnamed source parts;
the solver/orchestration core is not present under `src/` and is modelled
from the specification where a claim needs it (each such definition says so
in its doc comment).  Real-number arithmetic of the JavaScript source is
embedded over `ℝ` (or `ℚ` where exact evaluation is needed).
-/

namespace QuantumFleet

/-! ## Embedding of `src/Components/utils/geocoding.js` -/

/-- JavaScript `Math.atan2 y x`, as a real-valued function (principal value in
`(-π, π]`).  Only used as an opaque final step of the haversine formula; the
symmetry argument never inspects its branches. -/
noncomputable def atan2 (y x : ℝ) : ℝ :=
  if 0 < x then Real.arctan (y / x)
  else if x < 0 then
    (if 0 ≤ y then Real.arctan (y / x) + Real.pi else Real.arctan (y / x) - Real.pi)
  else
    (if 0 < y then Real.pi / 2 else if y < 0 then -(Real.pi / 2) else 0)

/-- The intermediate quantity `a` of `calculateDistance` (geocoding.js lines
477-481): `sin(dLat/2)^2 + cos(lat1°)·cos(lat2°)·sin(dLng/2)^2`. -/
noncomputable def haversineTerm (lat1 lng1 lat2 lng2 : ℝ) : ℝ :=
  Real.sin ((lat2 - lat1) * Real.pi / 180 / 2) * Real.sin ((lat2 - lat1) * Real.pi / 180 / 2) +
    Real.cos (lat1 * Real.pi / 180) * Real.cos (lat2 * Real.pi / 180) *
      Real.sin ((lng2 - lng1) * Real.pi / 180 / 2) * Real.sin ((lng2 - lng1) * Real.pi / 180 / 2)

/-- `calculateDistance` (geocoding.js lines 475-484): haversine great-circle
distance in kilometres, Earth radius 6371 km. -/
noncomputable def calculateDistance (lat1 lng1 lat2 lng2 : ℝ) : ℝ :=
  6371 * (2 * atan2 (Real.sqrt (haversineTerm lat1 lng1 lat2 lng2))
    (Real.sqrt (1 - haversineTerm lat1 lng1 lat2 lng2)))

/-- A latitude/longitude pair, as used by the route helpers of geocoding.js. -/
structure Coord where
  lat : ℝ
  lng : ℝ

/-- The `speedMap` object of `createFallbackRoute` (geocoding.js line 287). -/
def speedMap (profile : String) : Option ℝ :=
  if profile = ("driving") then some 50
  else if profile = ("walking") then some 5
  else if profile = ("cycling") then some 20
  else none

/-- `speedMap[profile] || 50` (geocoding.js line 288): profile speed with
default 50 for unknown profiles. -/
def speedOf (profile : String) : ℝ := (speedMap profile).getD 50

/-- The single route object built by `createFallbackRoute` (geocoding.js lines
285-318).  The simulated random elevation and the textual steps are omitted:
the claims concern only distance, duration and fuel cost. -/
structure FallbackRoute where
  coordinates : List (ℝ × ℝ)
  distance : ℝ
  duration : ℝ
  fuelCost : ℝ

/-- `createFallbackRoute` (geocoding.js lines 285-318): direct route with
haversine distance, `duration = (distance / speed) * 60` minutes, and a fuel
cost from the profile-dependent efficiency. -/
noncomputable def createFallbackRoute (a b : Coord) (profile : String) : FallbackRoute :=
  let distance := calculateDistance a.lat a.lng b.lat b.lng
  let speed := speedOf profile
  let fuelEfficiency : ℝ := if profile = ("bike") then 45 else if profile = ("car") then 15 else 8
  { coordinates := [(a.lat, a.lng), (b.lat, b.lng)]
    distance := distance
    duration := (distance / speed) * 60
    fuelCost := (distance / fuelEfficiency) * 100 }

/-- The `angle` computed by `getBearing` (geocoding.js lines 321-324):
`atan2(dLng, dLat) · 180 / π`. -/
noncomputable def bearingAngle (a b : Coord) : ℝ :=
  atan2 (b.lng - a.lng) (b.lat - a.lat) * 180 / Real.pi

/-- `getBearing` (geocoding.js lines 321-335): eight compass-range checks on
the angle, with a final fallback of `'toward'`. -/
noncomputable def getBearing (a b : Coord) : String :=
  if -22.5 ≤ bearingAngle a b ∧ bearingAngle a b < 22.5 then ("north")
  else if 22.5 ≤ bearingAngle a b ∧ bearingAngle a b < 67.5 then ("northeast")
  else if 67.5 ≤ bearingAngle a b ∧ bearingAngle a b < 112.5 then ("east")
  else if 112.5 ≤ bearingAngle a b ∧ bearingAngle a b < 157.5 then ("southeast")
  else if 157.5 ≤ bearingAngle a b ∨ bearingAngle a b < -157.5 then ("south")
  else if -157.5 ≤ bearingAngle a b ∧ bearingAngle a b < -112.5 then ("southwest")
  else if -112.5 ≤ bearingAngle a b ∧ bearingAngle a b < -67.5 then ("west")
  else if -67.5 ≤ bearingAngle a b ∧ bearingAngle a b < -22.5 then ("northwest")
  else ("toward")

/-! ## Embedding of the client (Sidebar in `src/unnamed/part_005`,
`src/frontend/src/App.js`, MetricsPanel implementations) -/

/-- The `/optimize-route` response shape consumed by `handleOptimize`
(part_005 lines 301-322): `ok`, optional `results`, `error` string. -/
structure OptimizeResponse (α : Type) where
  ok : Bool
  results : Option α
  error : String

/-- The externally visible effect of one `handleOptimize` call: whether the
run was treated as successful, what was passed to `onOptimizationComplete`,
the alert raised (if any), and whether live-update polling was started. -/
structure ClientAction (α : Type) where
  success : Bool
  delivered : Option α
  alerted : Option String
  polling : Bool

/-- `handleOptimize` (part_005 lines 301-322): on `ok`, deliver
`response.data.results` and start polling; otherwise alert the error string
and deliver `null`. -/
def handleOptimize {α : Type} (resp : OptimizeResponse α) : ClientAction α :=
  if resp.ok then
    { success := true, delivered := resp.results, alerted := none, polling := true }
  else
    { success := false, delivered := none,
      alerted := some (("Optimization failed: ") ++ resp.error), polling := false }

/-- Modelled from the spec: the Quantum Solver's progress emitter is not in
`src/`; per §4.3 each parameter-search iteration reports a percent derived
from iterations completed / max iterations (scaled to 100, integer
division). -/
def progressPercent (maxIter i : ℕ) : ℕ := 100 * i / maxIter

/-- The percent values a client observes over the telemetry channel during a
single successful run: the emitted per-iteration percents (modelled from the
spec, see `progressPercent`) followed by the value 100 that
`handleOptimizationComplete` in `src/frontend/src/App.js` (lines 58-64) sets
on completion. -/
def observedPercents (maxIter : ℕ) : List ℕ :=
  ((List.range (maxIter + 1)).map (progressPercent maxIter)) ++ [100]

/-- `startPollingLiveUpdates` (part_005 lines 279-295) uses
`setInterval(..., 5000)`: cycle `k` begins at second `5 · k`,
unconditionally — there is no in-flight guard. -/
def cycleStart (k : ℕ) : ℕ := 5 * k

/-- Finish time of polling cycle `k` when cycle `j` takes `d j` seconds to
complete its re-optimization request. -/
def cycleEnd (d : ℕ → ℕ) (k : ℕ) : ℕ := cycleStart k + d k

/-- Cycles `j` and `k` overlap: the later cycle starts before the earlier
one's request has finished. -/
def cyclesOverlap (d : ℕ → ℕ) (j k : ℕ) : Prop :=
  j < k ∧ cycleStart k < cycleEnd d j

/-- JavaScript `Math.round`: round half toward positive infinity. -/
def jsRound (x : ℚ) : ℤ := ⌊x + 1 / 2⌋

/-- `calculateCO2Savings` (MetricsPanel in part_005 lines 37-43):
`round2(((d/100)·8)·2.3·0.15)`, with an early 0 for a falsy distance. -/
def calculateCO2Savings (distance : ℚ) : ℚ :=
  if distance = 0 then 0
  else (jsRound (distance / 100 * 8 * 2.3 * 0.15 * 100) : ℚ) / 100

/-- The per-route CO2 value of `getDisplayMetrics` in
`src/frontend/src/components/MetricsPanel.js` (line 70): `distance · 0.15`. -/
def co2FromDistance (distance : ℚ) : ℚ := distance * 0.15

/-! ## Spec-modelled solver core

The Orchestrator, Classical Solver and optimize endpoint described by the
specification are not present under `src/` (the repository is
frontend-only), so they are modelled here from the specification's words.
Locations are indexed `0 .. n`, with `0` the depot and `1 .. n` the
destinations; costs are an abstract symmetric-agnostic matrix `ℕ → ℕ → ℚ`
(the CostGraph produced by the Graph Builder). -/

/-- Modelled from the spec (§4.4): pick the unassigned location nearest to
`pos` (ties broken by position in the list, i.e. by location id order).
Returns the chosen location and the remaining list; the `[]` case is never
used by callers. -/
def pickNearest (cost : ℕ → ℕ → ℚ) (pos : ℕ) : List ℕ → ℕ × List ℕ
  | [] => (0, [])
  | [x] => (x, [])
  | x :: y :: rest =>
    let r := pickNearest cost pos (y :: rest)
    if cost pos x ≤ cost pos r.1 then (x, y :: rest) else (r.1, x :: r.2)

/-- Modelled from the spec (§4.4, "balancing route length across vehicles"):
index of the route with the fewest stops so far (ties to the earlier
vehicle). -/
def shortestIdx : List (List ℕ) → ℕ
  | [] => 0
  | [_] => 0
  | r :: s :: rest =>
    let j := shortestIdx (s :: rest)
    if r.length ≤ ((s :: rest).getD j []).length then 0 else j + 1

/-- The location a vehicle is currently at: the last assigned stop, or the
depot `0` for an empty route. -/
def currentPos (r : List ℕ) : ℕ := r.getLast?.getD 0

/-- Modelled from the spec (§4.4 construction phase): while deliveries remain
unassigned, the vehicle with the shortest route receives the unassigned
location nearest to its current position.  `fuel` bounds the recursion and is
instantiated with the number of destinations. -/
def assign (cost : ℕ → ℕ → ℚ) : ℕ → List (List ℕ) → List ℕ → List (List ℕ)
  | 0, rs, _ => rs
  | _ + 1, rs, [] => rs
  | fuel + 1, rs, x :: xs =>
    let k := shortestIdx rs
    let p := pickNearest cost (currentPos (rs.getD k [])) (x :: xs)
    assign cost fuel (rs.set k ((rs.getD k []) ++ [p.1])) p.2

/-- Cost of traversing a path of location ids edge by edge. -/
def routeCost (cost : ℕ → ℕ → ℚ) : List ℕ → ℚ
  | [] => 0
  | [_] => 0
  | a :: b :: rest => cost a b + routeCost cost (b :: rest)

/-- Cost of a vehicle tour: depot, assigned stops in order, back to depot. -/
def tourCost (cost : ℕ → ℕ → ℚ) (r : List ℕ) : ℚ := routeCost cost (0 :: r ++ [0])

/-- Reverse the length-`d` segment of `r` starting at index `i` (the 2-opt
move of the spec's improvement phase). -/
def reverseSegment (r : List ℕ) (i d : ℕ) : List ℕ :=
  r.take i ++ ((r.drop i).take d).reverse ++ (r.drop i).drop d

/-- Modelled from the spec (§4.4 improvement phase): try candidate segment
reversals in order and keep the first one that strictly lowers the tour
cost. -/
def tryReversals (cost : ℕ → ℕ → ℚ) (r : List ℕ) : List (ℕ × ℕ) → List ℕ
  | [] => r
  | (i, d) :: rest =>
    if tourCost cost (reverseSegment r i d) < tourCost cost r then reverseSegment r i d
    else tryReversals cost r rest

/-- All candidate (start index, segment length) pairs for a route of `n`
stops. -/
def segmentPairs (n : ℕ) : List (ℕ × ℕ) :=
  (List.range n).flatMap (fun i => (List.range n).map (fun d => (i, d + 1)))

/-- One bounded local-search pass over a single route (pairwise edge
exchange, spec §4.4). -/
def improveRoute (cost : ℕ → ℕ → ℚ) (r : List ℕ) : List ℕ :=
  tryReversals cost r (segmentPairs r.length)

/-- Modelled from the spec (§4.4 Classical Solver): greedy nearest-unassigned
construction balanced across `v` vehicles over destinations `1 .. n`,
followed by a local-search pass per route; every route is returned beginning
and ending at the depot `0`. -/
def classicalSolve (cost : ℕ → ℕ → ℚ) (n v : ℕ) : List (List ℕ) :=
  (assign cost n (List.replicate v []) (List.range' 1 n)).map
    (fun r => 0 :: improveRoute cost r ++ [0])

/-- The non-depot locations of a list of location ids. -/
def nonDepot (l : List ℕ) : List ℕ := l.filter (fun x => decide (x ≠ 0))

/-- `method_used` of the Orchestrator's terminal state (spec §4.5). -/
inductive Method where
  | quantum
  | classical
  | quantumWithClassicalFallback
deriving DecidableEq

/-- Outcome of a quantum solve attempt (spec §9, `SolverOutcome`).  A raw
`success` carries the routes decoded from the best sampled bitstring; spec
§4.3 requires that they decode to a feasible Solution, which is enforced by
the decode step `decodeQuantum` before the Orchestrator accepts them. -/
inductive SolverOutcome where
  | success (routes : List (List ℕ))
  | timedOut
  | decodeFailed
  | tooLarge

/-- Modelled from the spec (§4.3): one quantum solve attempt, abstracted as
the wall-clock duration it would need and the outcome it would produce if
allowed to finish. -/
structure QuantumAttempt where
  duration : ℕ
  outcome : SolverOutcome

/-- Modelled from the spec (§4.2): the configured variable-count ceiling above
which the quantum path is not attempted. -/
def qubitCeiling : ℕ := 20

/-- Modelled from the spec (§4.3): the attempt fails with a timeout when its
wall-clock need exceeds the budget, otherwise it yields its outcome. -/
def runQuantum (budget : ℕ) (att : QuantumAttempt) : SolverOutcome :=
  if budget < att.duration then SolverOutcome.timedOut else att.outcome

/-- Modelled from the spec (§4.3): the decode step of the Quantum Solver — a
sampled result counts as a success only if it decodes into a feasible
Solution over destinations `1 .. n` (every non-depot destination in exactly
one route, the §3 Route invariant); otherwise the attempt fails with
`QuantumDecodeError`. -/
def decodeQuantum (n : ℕ) : SolverOutcome → SolverOutcome
  | SolverOutcome.success routes =>
    if (nonDepot routes.flatten).Perm (List.range' 1 n) then SolverOutcome.success routes
    else SolverOutcome.decodeFailed
  | out => out

/-- The Orchestrator's `Done` state: final routes plus the method actually
used (spec §4.5). -/
structure DoneState where
  routes : List (List ℕ)
  method : Method

/-- Modelled from the spec (§4.5 state machine): problems above the qubit
ceiling and a zero quantum budget route directly to the Classical Solver
(`method_used = classical`, immediate fallback); otherwise the quantum
attempt runs, its result passes the §4.3 decode check (`decodeQuantum`), and
it either succeeds (`quantum`) or falls back
(`quantum_with_classical_fallback`). -/
def orchestrate (cost : ℕ → ℕ → ℚ) (n v budget : ℕ) (att : QuantumAttempt) : DoneState :=
  if qubitCeiling < n then { routes := classicalSolve cost n v, method := Method.classical }
  else if budget = 0 then { routes := classicalSolve cost n v, method := Method.classical }
  else
    match decodeQuantum n (runQuantum budget att) with
    | SolverOutcome.success routes => { routes := routes, method := Method.quantum }
    | _ => { routes := classicalSolve cost n v, method := Method.quantumWithClassicalFallback }

/-- A request coordinate (spec §6 request shape). -/
structure Coordinate where
  lat : ℚ
  lng : ℚ
deriving DecidableEq

/-- Spec §4.1: a coordinate is valid when within latitude/longitude range. -/
def validCoordinate (c : Coordinate) : Bool :=
  decide (-90 ≤ c.lat) && decide (c.lat ≤ 90) && decide (-180 ≤ c.lng) && decide (c.lng ≤ 180)

/-- An optimization request (spec §6). -/
structure OptRequest where
  depot : Coordinate
  destinations : List Coordinate
  vehicle_count : ℕ

/-- The user-visible error kinds of the optimize endpoint (spec §7): fatal
input-level errors only — quantum-path errors never escape. -/
inductive ErrorKind where
  | invalidLocation
  | infeasibleProblem
deriving DecidableEq

/-- The optimize endpoint's response (spec §6): `ok`, optional results,
optional error kind. -/
structure EndpointResponse where
  ok : Bool
  results : Option DoneState
  error : Option ErrorKind

/-- Modelled from the spec (§6, §7): the optimize operation.  Zero vehicles
or zero locations are fatal (`InfeasibleProblemError`, surfaced as
`ok:false`); out-of-range coordinates are rejected with
`InvalidLocationError` before any solver runs; otherwise the Orchestrator
produces the result. -/
def optimizeEndpoint (cost : ℕ → ℕ → ℚ) (budget : ℕ) (att : QuantumAttempt)
    (req : OptRequest) : EndpointResponse :=
  if req.vehicle_count = 0 ∨ req.destinations = [] then
    { ok := false, results := none, error := some ErrorKind.infeasibleProblem }
  else if !(validCoordinate req.depot && req.destinations.all validCoordinate) then
    { ok := false, results := none, error := some ErrorKind.invalidLocation }
  else
    { ok := true,
      results := some (orchestrate cost req.destinations.length req.vehicle_count budget att),
      error := none }

/-! ## Theorems for the geocoding embedding -/

/-- The haversine `a`-term is symmetric in its two coordinate pairs. -/
theorem haversineTerm_symm (lat1 lng1 lat2 lng2 : ℝ) :
    haversineTerm lat1 lng1 lat2 lng2 = haversineTerm lat2 lng2 lat1 lng1 := by
  unfold haversineTerm
  rw [show (lat2 - lat1) * Real.pi / 180 / 2 = -((lat1 - lat2) * Real.pi / 180 / 2) by ring,
    show (lng2 - lng1) * Real.pi / 180 / 2 = -((lng1 - lng2) * Real.pi / 180 / 2) by ring,
    Real.sin_neg, Real.sin_neg]
  ring

/-- C6: the pairwise cost used to build the CostGraph is symmetric — the
great-circle distance computed by `calculateDistance` from `a` to `b` equals
the distance computed from `b` to `a`. -/
theorem c6_calculateDistance_symm (lat1 lng1 lat2 lng2 : ℝ) :
    calculateDistance lat1 lng1 lat2 lng2 = calculateDistance lat2 lng2 lat1 lng1 := by
  unfold calculateDistance
  rw [haversineTerm_symm lat1 lng1 lat2 lng2]

/-- C7: the fallback route's duration equals the computed distance divided by
the profile's average speed, converted to minutes, where the speeds are
driving 50, walking 5, cycling 20, and 50 for any unknown profile. -/
theorem c7_fallback_duration (a b : Coord) (profile : String) :
    (createFallbackRoute a b profile).duration =
      (createFallbackRoute a b profile).distance / speedOf profile * 60 ∧
    speedOf ("driving") = 50 ∧ speedOf ("walking") = 5 ∧ speedOf ("cycling") = 20 ∧
    (∀ q : String, q ≠ ("driving") → q ≠ ("walking") → q ≠ ("cycling") → speedOf q = 50) := by
  refine ⟨rfl, by simp [speedOf, speedMap], by simp [speedOf, speedMap],
    by simp [speedOf, speedMap], ?_⟩
  intro q h1 h2 h3
  simp [speedOf, speedMap, h1, h2, h3]

/-- Witness for C7 at a concrete unknown profile (`"bike"` is not a key of
`speedMap`, so it takes the default 50). -/
theorem c7_witness :
    (createFallbackRoute ⟨0, 0⟩ ⟨0, 90⟩ ("bike")).duration =
      (createFallbackRoute ⟨0, 0⟩ ⟨0, 90⟩ ("bike")).distance / speedOf ("bike") * 60 ∧
    speedOf ("bike") = 50 := by
  obtain ⟨h1, -, -, -, h5⟩ := c7_fallback_duration ⟨0, 0⟩ ⟨0, 90⟩ ("bike")
  exact ⟨h1, h5 ("bike") (by decide) (by decide) (by decide)⟩

/-- C10: the eight compass-range checks of `getBearing` are exhaustive for
every pair of coordinates, so the final `'toward'` fallback is unreachable. -/
theorem c10_getBearing_ne_toward (a b : Coord) : getBearing a b ≠ ("toward") := by
  unfold getBearing
  split_ifs with h1 h2 h3 h4 h5 h6 h7 h8
  · decide
  · decide
  · decide
  · decide
  · decide
  · decide
  · decide
  · decide
  · exfalso
    push_neg at h1 h2 h3 h4 h5 h6 h7 h8
    exact absurd (h4 (h3 (h2 (h1 (h8 (h7 (h6 h5.2))))))) (not_le.mpr h5.1)

/-! ## Theorems for the client embedding -/

/-- C8: a response is treated as successful and its results delivered exactly
when `ok` is true; when `ok` is false the client raises the human-readable
error alert and delivers a null result instead. -/
theorem c8_handleOptimize_delivery {α : Type} (resp : OptimizeResponse α) :
    (handleOptimize resp).success = resp.ok ∧
    (handleOptimize resp).delivered = (if resp.ok then resp.results else none) ∧
    (handleOptimize resp).alerted =
      (if resp.ok then none else some (("Optimization failed: ") ++ resp.error)) := by
  unfold handleOptimize
  by_cases h : resp.ok <;> simp [h]

/-- Each emitted per-iteration percent is at most 100. -/
theorem progressPercent_le_100 (m i : ℕ) (h : i ≤ m) : progressPercent m i ≤ 100 := by
  unfold progressPercent
  calc 100 * i / m ≤ 100 * m / m := Nat.div_le_div_right (Nat.mul_le_mul_left 100 h)
  _ ≤ 100 := by
    rcases Nat.eq_zero_or_pos m with hm | hm
    · simp [hm]
    · rw [Nat.mul_div_cancel 100 hm]

/-- C4: within a single run the observed ProgressEvent percent sequence is
monotonically non-decreasing, stays within 0–100, and its final value on
successful completion is exactly 100. -/
theorem c4_progress_monotone_ends_at_100 (m : ℕ) :
    List.Chain' (· ≤ ·) (observedPercents m) ∧
    (∀ p ∈ observedPercents m, p ≤ 100) ∧
    (observedPercents m).getLast? = some 100 := by
  have hbound : ∀ p ∈ (List.range (m + 1)).map (progressPercent m), p ≤ 100 := by
    intro p hp
    obtain ⟨i, hi, rfl⟩ := List.mem_map.mp hp
    exact progressPercent_le_100 m i (Nat.lt_succ_iff.mp (List.mem_range.mp hi))
  refine ⟨?_, ?_, ?_⟩
  · rw [observedPercents, List.chain'_append]
    refine ⟨?_, List.chain'_singleton 100, ?_⟩
    · rw [List.chain'_map, List.chain'_range_succ]
      intro i _
      exact Nat.div_le_div_right (Nat.mul_le_mul_left 100 (Nat.le_succ i))
    · intro x hx y hy
      simp only [List.head?_cons, Option.mem_def, Option.some.injEq] at hy
      subst hy
      exact hbound x (List.mem_of_mem_getLast? hx)
  · intro p hp
    rcases List.mem_append.mp hp with h | h
    · exact hbound p h
    · simp only [List.mem_singleton] at h
      omega
  · exact List.getLast?_concat _

/-- C5 counterexample: the claim that two re-optimization cycles of the same
standing request never overlap fails on `startPollingLiveUpdates` — with a
7-second request duration, the cycle started at second 5 begins while the
cycle started at second 0 is still in flight. -/
theorem c5_counterexample : ¬ (∀ (d : ℕ → ℕ) (j k : ℕ), ¬ cyclesOverlap d j k) :=
  fun h => h (fun _ => 7) 0 1 ⟨by decide, by decide⟩

/-- C5 (amended): the polling loop starts one cycle every fixed 5 seconds,
but cycles are not serialized — no cycle is ever skipped, and a cycle whose
request takes longer than the 5-second interval overlaps the next cycle,
while one that finishes within the interval does not overlap it. -/
theorem c5_amended_polling_not_serialized (d : ℕ → ℕ) (k : ℕ) :
    cycleStart (k + 1) = cycleStart k + 5 ∧
    (5 < d k → cyclesOverlap d k (k + 1)) ∧
    (d k ≤ 5 → ¬ cyclesOverlap d k (k + 1)) := by
  refine ⟨by unfold cycleStart; ring, fun h => ⟨Nat.lt_succ_self k, ?_⟩, fun h hc => ?_⟩
  · unfold cycleStart cycleEnd cycleStart
    omega
  · obtain ⟨-, h2⟩ := hc
    unfold cycleEnd cycleStart at h2
    omega

/-- Witness for the amended C5 at a concrete 7-second request duration. -/
theorem c5_witness : cyclesOverlap (fun _ => 7) 0 1 :=
  (c5_amended_polling_not_serialized (fun _ => 7) 0).2.1 (by decide)

/-- C9 counterexample: at total distance 100 km the part_005 MetricsPanel
computes 2.76 kg of CO2 savings while the frontend MetricsPanel computes
15 kg, so the two computations do not agree. -/
theorem c9_counterexample : calculateCO2Savings 100 ≠ co2FromDistance 100 := by
  unfold calculateCO2Savings co2FromDistance jsRound
  norm_num

/-- C9 (amended): the two CO2-savings computations disagree at every positive
distance and agree only at distance 0 — part_005 computes (to two decimals)
`0.0276 · d`, the frontend computes `0.15 · d`. -/
theorem c9_amended_co2_agree_iff_zero (d : ℚ) (hd : 0 ≤ d) :
    calculateCO2Savings d = co2FromDistance d ↔ d = 0 := by
  constructor
  · intro h
    by_contra hne
    have hpos : 0 < d := lt_of_le_of_ne hd (Ne.symm hne)
    rw [calculateCO2Savings, if_neg hne, co2FromDistance] at h
    set z : ℤ := jsRound (d / 100 * 8 * 2.3 * 0.15 * 100) with hz
    have hz15 : (z : ℚ) = 15 * d := by
      field_simp at h
      linarith
    have hfl : (z : ℚ) ≤ d / 100 * 8 * 2.3 * 0.15 * 100 + 1 / 2 := by
      rw [hz]
      exact Int.floor_le _
    have hzpos : 0 < z := by
      have : (0 : ℚ) < (z : ℚ) := by rw [hz15]; positivity
      exact_mod_cast this
    have hone : (1 : ℚ) ≤ (z : ℚ) := by exact_mod_cast hzpos
    rw [hz15] at hfl hone
    nlinarith
  · intro h
    subst h
    simp [calculateCO2Savings, co2FromDistance]

/-- Witness for the amended C9 at the concrete distance 100 km. -/
theorem c9_witness :
    (0 : ℚ) ≤ 100 ∧ (calculateCO2Savings 100 = co2FromDistance 100 ↔ (100 : ℚ) = 0) :=
  ⟨by norm_num, c9_amended_co2_agree_iff_zero 100 (by norm_num)⟩

/-! ## Theorems for the spec-modelled solver core -/

/-- The location chosen by `pickNearest` together with the remainder is a
permutation of the nonempty input list. -/
theorem pickNearest_perm (cost : ℕ → ℕ → ℚ) (pos : ℕ) :
    ∀ l : List ℕ, l ≠ [] → ((pickNearest cost pos l).1 :: (pickNearest cost pos l).2).Perm l
  | [], h => absurd rfl h
  | [_], _ => by
    simp only [pickNearest]
    exact List.Perm.refl _
  | x :: y :: rest, _ => by
    have ih := pickNearest_perm cost pos (y :: rest) (by simp)
    simp only [pickNearest]
    split
    · exact List.Perm.refl _
    · exact (List.Perm.swap x _ _).trans (List.Perm.cons x ih)

/-- `shortestIdx` always returns a valid index of a nonempty route list. -/
theorem shortestIdx_lt : ∀ rs : List (List ℕ), rs ≠ [] → shortestIdx rs < rs.length
  | [], h => absurd rfl h
  | [_], _ => by
    simp only [shortestIdx, List.length_cons]
    omega
  | r :: s :: rest, _ => by
    have ih := shortestIdx_lt (s :: rest) (by simp)
    simp only [shortestIdx]
    split
    · simp only [List.length_cons]
      omega
    · simp only [List.length_cons] at ih ⊢
      omega

/-- Appending one stop to route `k` prepends exactly that stop to the
flattened solution, up to permutation. -/
theorem flatten_set_snoc (y : ℕ) :
    ∀ (rs : List (List ℕ)) (k : ℕ), k < rs.length →
      ((rs.set k ((rs.getD k []) ++ [y])).flatten).Perm (y :: rs.flatten)
  | [], k, h => by simp at h
  | r :: rest, 0, _ => by
    rw [List.getD_cons_zero, List.set_cons_zero, List.flatten_cons, List.flatten_cons,
      List.append_assoc, List.singleton_append]
    exact List.perm_middle
  | r :: rest, k + 1, h => by
    rw [List.getD_cons_succ, List.set_cons_succ, List.flatten_cons, List.flatten_cons]
    have hk : k < rest.length := by
      simp only [List.length_cons] at h
      omega
    exact (List.Perm.append_left r (flatten_set_snoc y rest k hk)).trans List.perm_middle

/-- Invariant of the greedy construction: the flattened routes after
assignment are a permutation of the flattened routes before it plus the
unassigned destinations (no destination is lost or duplicated). -/
theorem assign_flatten_perm (cost : ℕ → ℕ → ℚ) :
    ∀ (fuel : ℕ) (rs : List (List ℕ)) (u : List ℕ), rs ≠ [] → u.length ≤ fuel →
      ((assign cost fuel rs u).flatten).Perm (rs.flatten ++ u)
  | 0, rs, u, _, hu => by
    have hne : u = [] := List.length_eq_zero.mp (Nat.le_zero.mp hu)
    subst hne
    simp only [assign, List.append_nil]
    exact List.Perm.refl _
  | _ + 1, rs, [], _, _ => by
    simp only [assign, List.append_nil]
    exact List.Perm.refl _
  | fuel + 1, rs, x :: xs, hrs, hu => by
    have hk : shortestIdx rs < rs.length := shortestIdx_lt rs hrs
    simp only [assign]
    set p := pickNearest cost (currentPos (rs.getD (shortestIdx rs) [])) (x :: xs) with hp
    have hperm : (p.1 :: p.2).Perm (x :: xs) := by
      rw [hp]
      exact pickNearest_perm cost _ (x :: xs) (by simp)
    have hlen : p.2.length ≤ fuel := by
      have hl := hperm.length_eq
      simp only [List.length_cons] at hl hu
      omega
    have hrs' : rs.set (shortestIdx rs) (rs.getD (shortestIdx rs) [] ++ [p.1]) ≠ [] := by
      intro h
      have hlenz := congrArg List.length h
      rw [List.length_set] at hlenz
      simp at hlenz
      exact hrs hlenz
    refine (assign_flatten_perm cost fuel _ p.2 hrs' hlen).trans ?_
    refine ((flatten_set_snoc p.1 rs (shortestIdx rs) hk).append_right p.2).trans ?_
    refine (List.perm_middle.symm).trans ?_
    exact List.Perm.append_left rs.flatten hperm

/-- Reversing a segment of a route is a permutation of the route. -/
theorem reverseSegment_perm (r : List ℕ) (i d : ℕ) : (reverseSegment r i d).Perm r := by
  have h1 : ((((r.drop i).take d).reverse) ++ (r.drop i).drop d).Perm (r.drop i) := by
    have h2 := (List.reverse_perm ((r.drop i).take d)).append_right ((r.drop i).drop d)
    rwa [List.take_append_drop] at h2
  have h3 := List.Perm.append_left (r.take i) h1
  rw [List.take_append_drop] at h3
  unfold reverseSegment
  rw [List.append_assoc]
  exact h3

/-- The 2-opt pass returns a permutation of its input route. -/
theorem tryReversals_perm (cost : ℕ → ℕ → ℚ) (r : List ℕ) :
    ∀ ps : List (ℕ × ℕ), (tryReversals cost r ps).Perm r
  | [] => by
    simp only [tryReversals]
    exact List.Perm.refl _
  | (i, d) :: rest => by
    simp only [tryReversals]
    split
    · exact reverseSegment_perm r i d
    · exact tryReversals_perm cost r rest

/-- `improveRoute` only reorders the stops of a route. -/
theorem improveRoute_perm (cost : ℕ → ℕ → ℚ) (r : List ℕ) : (improveRoute cost r).Perm r :=
  tryReversals_perm cost r (segmentPairs r.length)

/-- Filtering a flattened list equals flattening the filtered components. -/
theorem filter_flatten_eq (p : ℕ → Bool) :
    ∀ L : List (List ℕ), (L.flatten).filter p = (L.map (fun l => l.filter p)).flatten
  | [] => by simp
  | l :: rest => by
    simp only [List.flatten_cons, List.filter_append, List.map_cons]
    rw [filter_flatten_eq p rest]

/-- Mapping a per-route permutation over a solution permutes its flattening. -/
theorem flatten_map_perm (f : List ℕ → List ℕ) (hf : ∀ r, (f r).Perm r) :
    ∀ L : List (List ℕ), ((L.map f).flatten).Perm L.flatten
  | [] => List.Perm.refl _
  | l :: rest => by
    rw [List.map_cons, List.flatten_cons, List.flatten_cons]
    exact (hf l).append (flatten_map_perm f hf rest)

/-- Flattening a fleet of empty routes gives the empty list. -/
theorem flatten_replicate_nil : ∀ v : ℕ, (List.replicate v ([] : List ℕ)).flatten = []
  | 0 => rfl
  | v + 1 => by
    rw [List.replicate_succ, List.flatten_cons, List.nil_append, flatten_replicate_nil v]

/-- Feasibility of the Classical Solver: with at least one vehicle, the
non-depot locations of the returned solution are a permutation of the
destination set `1 .. n`. -/
theorem classicalSolve_nonDepot_perm (cost : ℕ → ℕ → ℚ) (n v : ℕ) (hv : 1 ≤ v) :
    (nonDepot (classicalSolve cost n v).flatten).Perm (List.range' 1 n) := by
  unfold classicalSolve nonDepot
  rw [filter_flatten_eq, List.map_map]
  have hwrap : ((fun l => l.filter (fun x => decide (x ≠ 0))) ∘
      (fun r => 0 :: improveRoute cost r ++ [0]))
      = fun r => (improveRoute cost r).filter (fun x => decide (x ≠ 0)) := by
    funext r
    simp [List.filter_append]
  rw [hwrap]
  rw [show (fun r => (improveRoute cost r).filter (fun x => decide (x ≠ 0)))
      = (fun l => l.filter (fun x => decide (x ≠ 0))) ∘ improveRoute cost from rfl]
  rw [← List.map_map, ← filter_flatten_eq]
  have hrepl : List.replicate v ([] : List ℕ) ≠ [] := by
    intro h
    have hlen := congrArg List.length h
    simp at hlen
    omega
  have hassign := assign_flatten_perm cost n (List.replicate v []) (List.range' 1 n) hrepl
    (by simp [List.length_range'])
  rw [flatten_replicate_nil, List.nil_append] at hassign
  have himp := flatten_map_perm (improveRoute cost) (improveRoute_perm cost)
    (assign cost n (List.replicate v []) (List.range' 1 n))
  have hperm := (himp.trans hassign).filter (fun x => decide (x ≠ 0))
  have hfix : List.filter (fun x => decide (x ≠ 0)) (List.range' 1 n) = List.range' 1 n := by
    rw [List.filter_eq_self]
    intro a ha
    have h1 : 1 ≤ a := (List.mem_range'_1.mp ha).1
    simp
    omega
  rw [hfix] at hperm
  exact hperm

/-- A success surviving the §4.3 decode check is a feasible Solution: its
non-depot locations partition the destination set. -/
theorem decodeQuantum_success_feasible (n : ℕ) (out : SolverOutcome)
    (routes : List (List ℕ)) (h : decodeQuantum n out = SolverOutcome.success routes) :
    (nonDepot routes.flatten).Perm (List.range' 1 n) := by
  cases out with
  | success r =>
    simp only [decodeQuantum] at h
    split at h
    · rename_i hperm
      cases h
      exact hperm
    · exact SolverOutcome.noConfusion h
  | timedOut =>
    simp only [decodeQuantum] at h
    exact SolverOutcome.noConfusion h
  | decodeFailed =>
    simp only [decodeQuantum] at h
    exact SolverOutcome.noConfusion h
  | tooLarge =>
    simp only [decodeQuantum] at h
    exact SolverOutcome.noConfusion h

/-- On every Orchestrator path — direct classical, immediate fallback,
decoded quantum success, or quantum failure with classical fallback — the
returned Solution's non-depot locations partition the destination set. -/
theorem orchestrate_nonDepot_perm (cost : ℕ → ℕ → ℚ) (n v budget : ℕ)
    (att : QuantumAttempt) (hv : 1 ≤ v) :
    (nonDepot (orchestrate cost n v budget att).routes.flatten).Perm (List.range' 1 n) := by
  have hcl := classicalSolve_nonDepot_perm cost n v hv
  unfold orchestrate
  by_cases h1 : qubitCeiling < n
  · rw [if_pos h1]
    exact hcl
  · rw [if_neg h1]
    by_cases h2 : budget = 0
    · rw [if_pos h2]
      exact hcl
    · rw [if_neg h2]
      cases hq : decodeQuantum n (runQuantum budget att) with
      | success routes => exact decodeQuantum_success_feasible n (runQuantum budget att) routes hq
      | timedOut => exact hcl
      | decodeFailed => exact hcl
      | tooLarge => exact hcl

/-- C1: for every valid optimization request — every request the optimize
operation answers with a Solution — the non-depot locations across all
routes of that Solution are a permutation of the full destination set:
every destination appears in exactly one route, none is duplicated and none
is omitted, on the quantum path and the classical path alike. -/
theorem c1_destinations_partition (cost : ℕ → ℕ → ℚ) (budget : ℕ) (att : QuantumAttempt)
    (req : OptRequest) (done : DoneState)
    (hok : (optimizeEndpoint cost budget att req).results = some done) :
    (nonDepot done.routes.flatten).Perm (List.range' 1 req.destinations.length) := by
  unfold optimizeEndpoint at hok
  by_cases h1 : req.vehicle_count = 0 ∨ req.destinations = []
  · rw [if_pos h1] at hok
    exact Option.noConfusion hok
  · rw [if_neg h1] at hok
    by_cases h2 : (!(validCoordinate req.depot && req.destinations.all validCoordinate)) = true
    · rw [if_pos h2] at hok
      exact Option.noConfusion hok
    · rw [if_neg h2] at hok
      have hdone : done = orchestrate cost req.destinations.length req.vehicle_count budget att :=
        (Option.some.inj hok).symm
      subst hdone
      have hv : 1 ≤ req.vehicle_count := by
        rcases Nat.eq_zero_or_pos req.vehicle_count with h | h
        · exact absurd (Or.inl h) h1
        · exact h
      exact orchestrate_nonDepot_perm cost req.destinations.length req.vehicle_count budget att hv

/-- Witness for C1: a concrete valid request (one vehicle, two in-range
destinations, zero budget) whose response carries a Solution. -/
theorem c1_witness :
    (optimizeEndpoint (fun i j => (i : ℚ) + j) 0 ⟨1, SolverOutcome.timedOut⟩
        (OptRequest.mk ⟨0, 0⟩ [⟨1, 1⟩, ⟨2, 2⟩] 1)).results
      = some (orchestrate (fun i j => (i : ℚ) + j) 2 1 0 ⟨1, SolverOutcome.timedOut⟩) ∧
    (nonDepot (orchestrate (fun i j => (i : ℚ) + j) 2 1 0
        ⟨1, SolverOutcome.timedOut⟩).routes.flatten).Perm (List.range' 1 2) :=
  ⟨rfl, c1_destinations_partition (fun i j => (i : ℚ) + j) 0 ⟨1, SolverOutcome.timedOut⟩
    (OptRequest.mk ⟨0, 0⟩ [⟨1, 1⟩, ⟨2, 2⟩] 1)
    (orchestrate (fun i j => (i : ℚ) + j) 2 1 0 ⟨1, SolverOutcome.timedOut⟩) rfl⟩

/-- C2: with a zero quantum wall-clock budget the Orchestrator falls back
immediately: `method_used` is `classical` and the returned Solution is still
feasible (its non-depot locations partition the destination set). -/
theorem c2_zero_budget_classical (cost : ℕ → ℕ → ℚ) (n v : ℕ) (att : QuantumAttempt)
    (hv : 1 ≤ v) :
    (orchestrate cost n v 0 att).method = Method.classical ∧
    (nonDepot (orchestrate cost n v 0 att).routes.flatten).Perm (List.range' 1 n) := by
  have hcl := classicalSolve_nonDepot_perm cost n v hv
  unfold orchestrate
  by_cases h : qubitCeiling < n
  · rw [if_pos h]
    exact ⟨rfl, hcl⟩
  · rw [if_neg h, if_pos rfl]
    exact ⟨rfl, hcl⟩

/-- Witness for C2: one vehicle, two destinations, an attempt that would
otherwise time out. -/
theorem c2_witness :
    1 ≤ 1 ∧
    ((orchestrate (fun _ _ => 0) 2 1 0 ⟨3, SolverOutcome.timedOut⟩).method = Method.classical ∧
      (nonDepot (orchestrate (fun _ _ => 0) 2 1 0
        ⟨3, SolverOutcome.timedOut⟩).routes.flatten).Perm (List.range' 1 2)) :=
  ⟨by norm_num, c2_zero_budget_classical (fun _ _ => 0) 2 1 ⟨3, SolverOutcome.timedOut⟩
    (by norm_num)⟩

/-- C3: a request with `vehicle_count = 0` yields `ok : false` with error
kind `InfeasibleProblemError` and no Solution. -/
theorem c3_zero_vehicles_infeasible (cost : ℕ → ℕ → ℚ) (budget : ℕ) (att : QuantumAttempt)
    (req : OptRequest) (h : req.vehicle_count = 0) :
    (optimizeEndpoint cost budget att req).ok = false ∧
    (optimizeEndpoint cost budget att req).error = some ErrorKind.infeasibleProblem ∧
    (optimizeEndpoint cost budget att req).results = none := by
  unfold optimizeEndpoint
  rw [if_pos (Or.inl h)]
  exact ⟨rfl, rfl, rfl⟩

/-- Witness for C3 at a concrete zero-vehicle request. -/
theorem c3_witness :
    (OptRequest.mk ⟨0, 0⟩ [⟨1, 1⟩] 0).vehicle_count = 0 ∧
    ((optimizeEndpoint (fun _ _ => 0) 30 ⟨1, SolverOutcome.timedOut⟩
        (OptRequest.mk ⟨0, 0⟩ [⟨1, 1⟩] 0)).ok = false ∧
      (optimizeEndpoint (fun _ _ => 0) 30 ⟨1, SolverOutcome.timedOut⟩
        (OptRequest.mk ⟨0, 0⟩ [⟨1, 1⟩] 0)).error = some ErrorKind.infeasibleProblem ∧
      (optimizeEndpoint (fun _ _ => 0) 30 ⟨1, SolverOutcome.timedOut⟩
        (OptRequest.mk ⟨0, 0⟩ [⟨1, 1⟩] 0)).results = none) :=
  ⟨rfl, c3_zero_vehicles_infeasible (fun _ _ => 0) 30 ⟨1, SolverOutcome.timedOut⟩
    (OptRequest.mk ⟨0, 0⟩ [⟨1, 1⟩] 0) rfl⟩

end QuantumFleet
